import Mathlib

/-!
Verification development for the stateful inference request pipeline of the
model server (source: `src/statefulmodelinstance.cpp`).

The C++ code is shallowly embedded: tensor protos, the request/response
envelopes, the special-input extractors, the special-key validation, the
pre/post inference processing and the `infer` orchestrator are translated
into executable Lean definitions.  Components of the repository whose
implementation files are not part of the provided sources (the
`SequenceManager` / `Sequence` implementation and the generic request
validation) are modelled from the specification; each such definition says
so in its doc comment.  External collaborators (the inference runtime, the
deserializer/serializer) are parameters of the embedding.
-/

namespace Ovms

/-- Status codes of the pipeline (subset of the server's `StatusCode` enum
that this subsystem produces). -/
inductive StatusCode where
  | OK
  | SPECIAL_INPUT_NO_TENSOR_SHAPE
  | INVALID_NO_OF_SHAPE_DIMENSIONS
  | INVALID_SHAPE
  | SEQUENCE_ID_BAD_TYPE
  | SEQUENCE_CONTROL_INPUT_BAD_TYPE
  | INVALID_SEQUENCE_CONTROL_INPUT
  | SEQUENCE_ID_NOT_PROVIDED
  | SEQUENCE_MISSING
  | SEQUENCE_ALREADY_EXISTS
  | MAX_SEQUENCES_REACHED
  | INTERNAL_ERROR
  | DESERIALIZATION_ERROR
  | SERIALIZATION_ERROR
  | INFERENCE_ERROR
  | INVALID_MISSING_INPUT
  deriving DecidableEq, Repr

/-- Element types of a tensor proto (subset of `tensorflow::DataType`). -/
inductive DataType where
  | DT_INVALID
  | DT_FLOAT
  | DT_UINT32
  | DT_UINT64
  deriving DecidableEq, Repr

/-- Shallow model of `tensorflow::TensorProto`: the declared element type,
the shape (`tensor_shape().dim(i).size()` is `dims[i]`, `dim_size()` is
`dims.length`) and the two value fields the stateful pipeline reads
(`uint64_val`, `uint32_val`).  Unsigned machine values are carried as `Nat`;
the pipeline only copies them, it never computes with them. -/
structure TensorProto where
  dtype : DataType := .DT_INVALID
  dims : List Int := []
  uint64Val : List Nat := []
  uint32Val : List Nat := []
  deriving DecidableEq, Repr

/-- A predict request: named input tensors (`request->inputs()`). -/
structure PredictRequest where
  inputs : List (String × TensorProto)
  deriving DecidableEq, Repr

/-- `request->inputs().find(name)`. -/
def PredictRequest.findInput (r : PredictRequest) (name : String) : Option TensorProto :=
  r.inputs.lookup name

/-- A predict response: named output tensors (`response->outputs()`). -/
abbrev PredictResponse := List (String × TensorProto)

instance {ε α : Type} [DecidableEq ε] [DecidableEq α] : DecidableEq (Except ε α)
  | .ok x, .ok y => decidable_of_iff (x = y) (by simp)
  | .ok _, .error _ => .isFalse (by simp)
  | .error _, .ok _ => .isFalse (by simp)
  | .error d, .error e => decidable_of_iff (d = e) (by simp)

/-- Sequence control constant `NO_CONTROL_INPUT` (wire value 0, CONTINUE). -/
def NO_CONTROL_INPUT : Nat := 0

/-- Sequence control constant `SEQUENCE_START` (wire value 1). -/
def SEQUENCE_START : Nat := 1

/-- Sequence control constant `SEQUENCE_END` (wire value 2). -/
def SEQUENCE_END : Nat := 2

/-- `SequenceProcessingSpec`: the validated pair of special inputs; the
sequence id is mutated in place by the manager on START-with-0. -/
structure SequenceProcessingSpec where
  sequenceId : Nat
  sequenceControlInput : Nat
  deriving DecidableEq, Repr

/-- `StatefulModelInstance::extractSequenceId`: checks shape information is
present, the rank is 1 and dimension 0 has size 1, then requires exactly one
entry in `uint64_val`; the declared dtype is not consulted. -/
def extractSequenceId (proto : TensorProto) : Except StatusCode Nat :=
  if proto.dims.length = 0 then
    .error .SPECIAL_INPUT_NO_TENSOR_SHAPE
  else if proto.dims.length ≠ 1 then
    .error .INVALID_NO_OF_SHAPE_DIMENSIONS
  else if proto.dims.headD 0 ≠ 1 then
    .error .INVALID_SHAPE
  else if proto.uint64Val.length = 1 then
    .ok (proto.uint64Val.headD 0)
  else
    .error .SEQUENCE_ID_BAD_TYPE

/-- `StatefulModelInstance::extractSequenceControlInput`: same shape checks,
then requires exactly one entry in `uint32_val`. -/
def extractSequenceControlInput (proto : TensorProto) : Except StatusCode Nat :=
  if proto.dims.length = 0 then
    .error .SPECIAL_INPUT_NO_TENSOR_SHAPE
  else if proto.dims.length ≠ 1 then
    .error .INVALID_NO_OF_SHAPE_DIMENSIONS
  else if proto.dims.headD 0 ≠ 1 then
    .error .INVALID_SHAPE
  else if proto.uint32Val.length = 1 then
    .ok (proto.uint32Val.headD 0)
  else
    .error .SEQUENCE_CONTROL_INPUT_BAD_TYPE

/-- The `sequence_id` extraction step of `validateSpecialKeys`: the local
`sequenceId` starts at 0 and is overwritten only when the input is present
and extraction succeeds. -/
def requestSequenceId (r : PredictRequest) : Except StatusCode Nat :=
  match r.findInput "sequence_id" with
  | some proto => extractSequenceId proto
  | none => .ok 0

/-- The `sequence_control_input` extraction step of `validateSpecialKeys`:
the local `sequenceControlInput` starts at 0 (`NO_CONTROL_INPUT`) and is
overwritten only when the input is present and extraction succeeds. -/
def requestControlInput (r : PredictRequest) : Except StatusCode Nat :=
  match r.findInput "sequence_control_input" with
  | some proto => extractSequenceControlInput proto
  | none => .ok NO_CONTROL_INPUT

/-- `StatefulModelInstance::validateSpecialKeys`: extract the two special
inputs (absent means 0 resp. CONTINUE), reject a control value outside
{END, CONTINUE, START}, then reject CONTINUE/END with id 0, and only then
populate the processing spec. -/
def validateSpecialKeys (r : PredictRequest) : Except StatusCode SequenceProcessingSpec :=
  match requestSequenceId r with
  | .error s => .error s
  | .ok sequenceId =>
    match requestControlInput r with
    | .error s => .error s
    | .ok sequenceControlInput =>
      if sequenceControlInput ≠ SEQUENCE_END ∧ sequenceControlInput ≠ NO_CONTROL_INPUT ∧
          sequenceControlInput ≠ SEQUENCE_START then
        .error .INVALID_SEQUENCE_CONTROL_INPUT
      else if (sequenceControlInput = SEQUENCE_END ∨ sequenceControlInput = NO_CONTROL_INPUT) ∧
          sequenceId = 0 then
        .error .SEQUENCE_ID_NOT_PROVIDED
      else
        .ok ⟨sequenceId, sequenceControlInput⟩

/-- One queryable state slot of an inference handle (an element of
`inferRequest.query_state()`): its name, the model's default payload
(`reset` restores it) and the current payload (`get_state` / `set_state`).
Payloads are opaque to this subsystem, so their type is a parameter. -/
structure StateSlot (α : Type) where
  name : String
  deflt : α
  value : α
  deriving DecidableEq, Repr

/-- `state.reset()`: restore the slot's payload to the model's default. -/
def StateSlot.reset {α : Type} (s : StateSlot α) : StateSlot α :=
  { s with value := s.deflt }

/-- `Sequence`: the saved `MemoryStateMap` (state-slot name to payload) and
the `idle` flag read by the reaper.  Modelled from the spec: the `Sequence`
implementation file is not among the provided sources; spec §3 gives its
fields (a MemoryStateMap, an `idle` boolean, a mutex — the mutex is
represented by the lock events of the pipeline trace). -/
structure Sequence (α : Type) where
  memoryState : List (String × α)
  idle : Bool
  deriving DecidableEq, Repr

/-- `Sequence::updateMemoryState`.  Modelled from the spec (§4.B): replaces
the MemoryStateMap wholesale with the supplied (name, payload) pairs; any
previously present key not in the new list is dropped. -/
def Sequence.updateMemoryState {α : Type} (seq : Sequence α) (modelState : List (StateSlot α)) :
    Sequence α :=
  { seq with memoryState := modelState.map fun s => (s.name, s.value) }

/-- `SequenceManager`: mapping from sequence id to `Sequence`, plus the
configured `maxSequenceNumber` bound.  Modelled from the spec (§3): the
`SequenceManager` implementation file is not among the provided sources. -/
structure SequenceManager (α : Type) where
  sequences : List (Nat × Sequence α)
  maxSequenceNumber : Nat
  deriving DecidableEq, Repr

/-- `SequenceManager::sequenceExists`. -/
def SequenceManager.sequenceExists {α : Type} (mgr : SequenceManager α) (sequenceId : Nat) :
    Bool :=
  (mgr.sequences.lookup sequenceId).isSome

/-- `SequenceManager::getSequence` (lookup under the manager lock); total
here by returning an empty sequence for an absent id, which the pipeline
never does (it checks `sequenceExists` first). -/
def SequenceManager.getSequence {α : Type} (mgr : SequenceManager α) (sequenceId : Nat) :
    Sequence α :=
  (mgr.sequences.lookup sequenceId).getD ⟨[], false⟩

/-- Replace the stored sequence for `sequenceId` (the C++ pipeline mutates
the `Sequence` through a reference into the manager's map; the functional
embedding writes the updated value back). -/
def SequenceManager.setSequence {α : Type} (mgr : SequenceManager α) (sequenceId : Nat)
    (seq : Sequence α) : SequenceManager α :=
  { mgr with
    sequences := mgr.sequences.map fun p => if p.1 = sequenceId then (sequenceId, seq) else p }

/-- Clear the `idle` flag of the sequence `sequenceId` (the mark-active
operation of spec §4.B). -/
def SequenceManager.clearIdleFlag {α : Type} (mgr : SequenceManager α) (sequenceId : Nat) :
    SequenceManager α :=
  mgr.setSequence sequenceId { mgr.getSequence sequenceId with idle := false }

/-- A fresh sequence id: one more than the largest id in use, hence unused
and non-zero.  Modelled from the spec (§4.C): id generation on START-with-0
"generates a fresh id not currently in use". -/
def SequenceManager.freshId {α : Type} (mgr : SequenceManager α) : Nat :=
  (mgr.sequences.map Prod.fst).foldr max 0 + 1

/-- `SequenceManager::processRequestedSpec`.  Modelled from the spec (§4.C
table, caller holds the manager mutex): START with id 0 generates a fresh
id, creates a sequence and writes the id back into the spec; START with a
used id fails `SEQUENCE_ALREADY_EXISTS`; START beyond the population bound
fails `MAX_SEQUENCES_REACHED`; CONTINUE/END with id 0 fail
`SEQUENCE_ID_NOT_PROVIDED`; CONTINUE/END with an unknown id fail
`SEQUENCE_MISSING`, otherwise they change nothing.  A freshly created
sequence has an empty memory map and is not idle. -/
def SequenceManager.processRequestedSpec {α : Type} (mgr : SequenceManager α)
    (spec : SequenceProcessingSpec) :
    Except StatusCode (SequenceProcessingSpec × SequenceManager α) :=
  if spec.sequenceControlInput = SEQUENCE_START then
    if spec.sequenceId = 0 then
      if mgr.maxSequenceNumber ≤ mgr.sequences.length then
        .error .MAX_SEQUENCES_REACHED
      else
        let newId := mgr.freshId
        .ok (⟨newId, spec.sequenceControlInput⟩,
          { mgr with sequences := (newId, ⟨[], false⟩) :: mgr.sequences })
    else if mgr.sequenceExists spec.sequenceId then
      .error .SEQUENCE_ALREADY_EXISTS
    else if mgr.maxSequenceNumber ≤ mgr.sequences.length then
      .error .MAX_SEQUENCES_REACHED
    else
      .ok (spec, { mgr with sequences := (spec.sequenceId, ⟨[], false⟩) :: mgr.sequences })
  else
    if spec.sequenceId = 0 then
      .error .SEQUENCE_ID_NOT_PROVIDED
    else if mgr.sequenceExists spec.sequenceId then
      .ok (spec, mgr)
    else
      .error .SEQUENCE_MISSING

/-- `SequenceManager::removeSequence`.  Modelled from the spec (§4.C):
deletes the entry; an unknown id fails `SEQUENCE_MISSING`. -/
def SequenceManager.removeSequence {α : Type} (mgr : SequenceManager α) (sequenceId : Nat) :
    Except StatusCode (SequenceManager α) :=
  if mgr.sequenceExists sequenceId then
    .ok { mgr with sequences := mgr.sequences.filter fun p => p.1 ≠ sequenceId }
  else
    .error .SEQUENCE_MISSING

/-- The loop body of `preInferenceProcessing`'s non-START branch: for each
state slot of the handle, look its name up in the sequence's memory map and
`set_state` the saved payload; a missing name is `INTERNAL_ERROR`. -/
def setSlotsFromMemory {α : Type} (slots : List (StateSlot α)) (memory : List (String × α)) :
    Except StatusCode (List (StateSlot α)) :=
  match slots with
  | [] => .ok []
  | s :: rest =>
    match memory.lookup s.name with
    | none => .error .INTERNAL_ERROR
    | some v =>
      match setSlotsFromMemory rest memory with
      | .error e => .error e
      | .ok rest' => .ok ({ s with value := v } :: rest')

/-- `StatefulModelInstance::preInferenceProcessing`: on START reset every
state slot of the handle to the model's default; otherwise load every slot
from the sequence's saved memory state, failing `INTERNAL_ERROR` when a
slot name is absent from the map. -/
def preInferenceProcessing {α : Type} (inferRequestState : List (StateSlot α))
    (sequence : Sequence α) (spec : SequenceProcessingSpec) :
    Except StatusCode (List (StateSlot α)) :=
  if spec.sequenceControlInput = SEQUENCE_START then
    .ok (inferRequestState.map StateSlot.reset)
  else
    setSlotsFromMemory inferRequestState sequence.memoryState

/-- `(*response->mutable_outputs())["sequence_id"]` followed by the three
mutations of `postInferenceProcessing`: protobuf map access default-creates
an absent entry; then a dimension of size 1 is appended to the tensor
shape, the dtype is set to `DT_UINT64`, and the sequence id is appended to
`uint64_val`. -/
def writeSequenceIdOutput (response : PredictResponse) (sequenceId : Nat) : PredictResponse :=
  let old := (response.lookup "sequence_id").getD {}
  let upd : TensorProto :=
    { old with
      dims := old.dims ++ [1]
      dtype := .DT_UINT64
      uint64Val := old.uint64Val ++ [sequenceId] }
  if (response.lookup "sequence_id").isSome then
    response.map fun p => if p.1 = "sequence_id" then ("sequence_id", upd) else p
  else
    response ++ [("sequence_id", upd)]

/-- `StatefulModelInstance::postInferenceProcessing`: on END reset every
state slot of the handle; otherwise snapshot the handle's current state
into the sequence via `updateMemoryState`; in all cases write the resolved
sequence id into the response as the `sequence_id` output.  Returns the
updated response, handle state and sequence. -/
def postInferenceProcessing {α : Type} (response : PredictResponse)
    (inferRequestState : List (StateSlot α)) (sequence : Sequence α)
    (spec : SequenceProcessingSpec) :
    PredictResponse × List (StateSlot α) × Sequence α :=
  if spec.sequenceControlInput = SEQUENCE_END then
    (writeSequenceIdOutput response spec.sequenceId, inferRequestState.map StateSlot.reset,
      sequence)
  else
    (writeSequenceIdOutput response spec.sequenceId, inferRequestState,
      sequence.updateMemoryState inferRequestState)

/-- Synchronization-relevant events emitted by one run of `infer`, in
program order: acquisitions and releases of the manager mutex
(`sequenceManagerLock`, including its RAII release on early returns) and of
the sequence mutex (`sequenceLock`), the clearing of the target sequence's
`idle` flag during the hand-off, and the removal of the sequence on the END
path. -/
inductive Event where
  | lockManager
  | unlockManager
  | lockSequence
  | unlockSequence
  | clearIdle
  | removeSeq
  deriving DecidableEq, Repr

/-- External collaborators of `infer`, specified only at their interfaces:
the generic (non-special) input validation of
`request_validation_utils::validate`, the state slots the pooled handle
carries when acquired, and the outcomes of deserialization, of the
inference step (its status and its effect on the handle's state slots) and
of serialization (its status and the model outputs it writes into the
response). -/
structure Externals (α : Type) where
  genericValidationStatus : StatusCode
  initialSlots : List (StateSlot α)
  deserializeStatus : StatusCode
  predictStatus : StatusCode
  predictEffect : List (StateSlot α) → List (StateSlot α)
  serializeStatus : StatusCode
  serializedOutputs : PredictResponse

/-- `StatefulModelInstance::validate`: special-key validation followed by
generic input validation (the latter an external collaborator). -/
def validate {α : Type} (r : PredictRequest) (ext : Externals α) :
    Except StatusCode SequenceProcessingSpec :=
  match validateSpecialKeys r with
  | .error s => .error s
  | .ok spec =>
    if ext.genericValidationStatus = .OK then .ok spec
    else .error ext.genericValidationStatus

/-- The result of one run of `infer`: the returned status, the final
sequence-manager state, the response proto and the event trace. -/
structure InferResult (α : Type) where
  status : StatusCode
  manager : SequenceManager α
  response : PredictResponse
  events : List Event
  deriving Repr

/-- `StatefulModelInstance::infer`, step for step: validate (returning
before any lock on failure); lock the manager; `processRequestedSpec`
(the RAII guard releases the manager lock on the error return); check the
sequence exists and fetch it; lock the sequence, clear its `idle` flag and
release the manager lock (the idle clearing is modelled from spec §4.F
step 3 — the `Sequence`/`SequenceManager` implementation files are not
among the provided sources); pre-inference processing, deserialization,
inference and serialization, each returning its error (the RAII guard
releasing the sequence lock); post-inference processing, whose writes to
the sequence land in the manager's map; release the sequence lock; on END
re-acquire the manager lock and remove the sequence. -/
def infer {α : Type} (r : PredictRequest) (ext : Externals α) (mgr : SequenceManager α) :
    InferResult α :=
  match validate r ext with
  | .error s => ⟨s, mgr, [], []⟩
  | .ok spec₀ =>
    match mgr.processRequestedSpec spec₀ with
    | .error s => ⟨s, mgr, [], [.lockManager, .unlockManager]⟩
    | .ok (spec, mgr₁) =>
      let sequenceId := spec.sequenceId
      if ¬ mgr₁.sequenceExists sequenceId then
        ⟨.INTERNAL_ERROR, mgr₁, [], [.lockManager, .unlockManager]⟩
      else
        let mgr₂ := mgr₁.clearIdleFlag sequenceId
        let sequence := mgr₂.getSequence sequenceId
        let handoff : List Event := [.lockManager, .lockSequence, .clearIdle, .unlockManager]
        match preInferenceProcessing ext.initialSlots sequence spec with
        | .error s => ⟨s, mgr₂, [], handoff ++ [.unlockSequence]⟩
        | .ok slots₁ =>
          if ext.deserializeStatus ≠ .OK then
            ⟨ext.deserializeStatus, mgr₂, [], handoff ++ [.unlockSequence]⟩
          else
            let slots₂ := ext.predictEffect slots₁
            if ext.predictStatus ≠ .OK then
              ⟨ext.predictStatus, mgr₂, [], handoff ++ [.unlockSequence]⟩
            else if ext.serializeStatus ≠ .OK then
              ⟨ext.serializeStatus, mgr₂, [], handoff ++ [.unlockSequence]⟩
            else
              let post := postInferenceProcessing ext.serializedOutputs slots₂ sequence spec
              let mgr₃ := mgr₂.setSequence sequenceId post.2.2
              if spec.sequenceControlInput = SEQUENCE_END then
                match mgr₃.removeSequence sequenceId with
                | .error s =>
                  ⟨s, mgr₃, post.1,
                    handoff ++ [.unlockSequence, .lockManager, .unlockManager]⟩
                | .ok mgr₄ =>
                  ⟨.OK, mgr₄, post.1,
                    handoff ++ [.unlockSequence, .lockManager, .removeSeq, .unlockManager]⟩
              else
                ⟨.OK, mgr₃, post.1, handoff ++ [.unlockSequence]⟩

/-- Lock-discipline checker over an event trace.  Simulating the held/free
state of the manager mutex `m` and the sequence mutex `s`, it enforces the
lock hierarchy of the pipeline: the manager mutex is only acquired when
neither mutex is held (in particular never while a sequence mutex is held);
the sequence mutex is only acquired while the manager mutex is held (the
hand-off, the one region where both are held, which can only end by
releasing the manager mutex); the sequence mutex is only released when the
manager mutex is not held (so the hand-off never ends by releasing the
sequence mutex first); and both mutexes are free when the run ends. -/
def checkLocks (m s : Bool) : List Event → Bool
  | [] => !m && !s
  | e :: rest =>
    match e with
    | .lockManager => !m && !s && checkLocks true s rest
    | .unlockManager => m && checkLocks false s rest
    | .lockSequence => m && !s && checkLocks m true rest
    | .unlockSequence => !m && s && checkLocks m false rest
    | _ => checkLocks m s rest

/-! ## Theorems -/

/-- C6: for each special input tensor, extraction fails in this exact
priority order: no shape information yields
`SPECIAL_INPUT_NO_TENSOR_SHAPE`; a rank other than 1 yields
`INVALID_NO_OF_SHAPE_DIMENSIONS`; a dimension-0 size other than 1 yields
`INVALID_SHAPE`; only then does a wrong element type or missing value
yield `SEQUENCE_ID_BAD_TYPE` resp. `SEQUENCE_CONTROL_INPUT_BAD_TYPE` — a
higher-priority failure masks all later checks (the earlier conclusions
hold whatever the value fields contain). -/
theorem extract_special_input_failure_priority (proto : TensorProto) :
    (proto.dims.length = 0 →
      extractSequenceId proto = .error .SPECIAL_INPUT_NO_TENSOR_SHAPE ∧
      extractSequenceControlInput proto = .error .SPECIAL_INPUT_NO_TENSOR_SHAPE) ∧
    (proto.dims.length ≠ 0 → proto.dims.length ≠ 1 →
      extractSequenceId proto = .error .INVALID_NO_OF_SHAPE_DIMENSIONS ∧
      extractSequenceControlInput proto = .error .INVALID_NO_OF_SHAPE_DIMENSIONS) ∧
    (proto.dims.length = 1 → proto.dims.headD 0 ≠ 1 →
      extractSequenceId proto = .error .INVALID_SHAPE ∧
      extractSequenceControlInput proto = .error .INVALID_SHAPE) ∧
    (proto.dims.length = 1 → proto.dims.headD 0 = 1 →
      (proto.uint64Val.length ≠ 1 →
        extractSequenceId proto = .error .SEQUENCE_ID_BAD_TYPE) ∧
      (proto.uint32Val.length ≠ 1 →
        extractSequenceControlInput proto = .error .SEQUENCE_CONTROL_INPUT_BAD_TYPE)) := by
  refine ⟨?_, ?_, ?_, ?_⟩
  · intro h
    simp [extractSequenceId, extractSequenceControlInput, h]
  · intro h0 h1
    simp [extractSequenceId, extractSequenceControlInput, h0, h1]
  · intro h1 hd
    obtain ⟨x, hx⟩ := List.length_eq_one.mp h1
    rw [hx] at hd
    simp only [List.headD] at hd
    simp [extractSequenceId, extractSequenceControlInput, hx, hd]
  · intro h1 hd
    obtain ⟨x, hx⟩ := List.length_eq_one.mp h1
    rw [hx] at hd
    simp only [List.headD] at hd
    constructor
    · intro hv
      simp [extractSequenceId, hx, hd, hv]
    · intro hv
      simp [extractSequenceControlInput, hx, hd, hv]

/-- Witness for C6: each failure mode of
`extract_special_input_failure_priority` exercised on a concrete proto. -/
theorem extract_special_input_failure_priority_witness :
    extractSequenceId { dims := [], uint64Val := [7] } =
      .error .SPECIAL_INPUT_NO_TENSOR_SHAPE ∧
    extractSequenceControlInput { dims := [1, 1], uint32Val := [0] } =
      .error .INVALID_NO_OF_SHAPE_DIMENSIONS ∧
    extractSequenceId { dims := [2], uint64Val := [7] } = .error .INVALID_SHAPE ∧
    extractSequenceId { dims := [1], uint64Val := [7, 8] } = .error .SEQUENCE_ID_BAD_TYPE ∧
    extractSequenceControlInput { dims := [1] } =
      .error .SEQUENCE_CONTROL_INPUT_BAD_TYPE := by
  refine ⟨?_, ?_, ?_, ?_, ?_⟩
  · exact ((extract_special_input_failure_priority { dims := [], uint64Val := [7] }).1
      (by decide)).1
  · exact ((extract_special_input_failure_priority
      { dims := [1, 1], uint32Val := [0] }).2.1 (by decide) (by decide)).2
  · exact ((extract_special_input_failure_priority { dims := [2], uint64Val := [7] }).2.2.1
      (by decide) (by decide)).1
  · exact (extract_special_input_failure_priority
      { dims := [1], uint64Val := [7, 8] }).2.2.2 (by decide) (by decide) |>.1 (by decide)
  · exact (extract_special_input_failure_priority { dims := [1] }).2.2.2
      (by decide) (by decide) |>.2 (by decide)

/-- C10: on a proto with valid shape (rank 1, dimension-0 size 1),
`extractSequenceId` succeeds with value `v` exactly when `uint64_val` is
the one-element list `[v]`; any other number of entries yields
`SEQUENCE_ID_BAD_TYPE`; symmetrically for `extractSequenceControlInput`
over `uint32_val`; and the declared element dtype is never inspected —
changing it changes neither extractor's result. -/
theorem extract_special_input_ignores_dtype (proto : TensorProto) (d : DataType) (v : Nat) :
    proto.dims.length = 1 → proto.dims.headD 0 = 1 →
    ((extractSequenceId proto = .ok v ↔ proto.uint64Val = [v]) ∧
     (proto.uint64Val.length ≠ 1 →
       extractSequenceId proto = .error .SEQUENCE_ID_BAD_TYPE) ∧
     (extractSequenceControlInput proto = .ok v ↔ proto.uint32Val = [v]) ∧
     (proto.uint32Val.length ≠ 1 →
       extractSequenceControlInput proto = .error .SEQUENCE_CONTROL_INPUT_BAD_TYPE)) ∧
    extractSequenceId { proto with dtype := d } = extractSequenceId proto ∧
    extractSequenceControlInput { proto with dtype := d } =
      extractSequenceControlInput proto := by
  intro h1 hd
  obtain ⟨x, hx⟩ := List.length_eq_one.mp h1
  rw [hx] at hd
  simp only [List.headD] at hd
  refine ⟨⟨?_, ?_, ?_, ?_⟩, rfl, rfl⟩
  · rcases hu : proto.uint64Val with _ | ⟨a, _ | ⟨b, l⟩⟩ <;>
      simp [extractSequenceId, hx, hd, hu]
  · intro hv
    simp [extractSequenceId, hx, hd, hv]
  · rcases hu : proto.uint32Val with _ | ⟨a, _ | ⟨b, l⟩⟩ <;>
      simp [extractSequenceControlInput, hx, hd, hu]
  · intro hv
    simp [extractSequenceControlInput, hx, hd, hv]

/-- Witness for C10: on shape `(1)`, a one-entry `uint64_val` succeeds, an
empty one fails `SEQUENCE_ID_BAD_TYPE`, and a dtype change is invisible. -/
theorem extract_special_input_ignores_dtype_witness :
    (extractSequenceId { dims := [1], uint64Val := [42] } = .ok 42 ↔
      ([42] : List Nat) = [42]) ∧
    extractSequenceId { dims := [1] } = .error .SEQUENCE_ID_BAD_TYPE ∧
    extractSequenceId { dtype := .DT_FLOAT, dims := [1], uint64Val := [42] } =
      extractSequenceId { dims := [1], uint64Val := [42] } := by
  have h := extract_special_input_ignores_dtype
    { dims := [1], uint64Val := [42] } .DT_FLOAT 42 (by decide) (by decide)
  have h0 := extract_special_input_ignores_dtype { dims := [1] } .DT_FLOAT 42
    (by decide) (by decide)
  exact ⟨h.1.1, h0.1.2.1 (by decide), h.2.1⟩

/-- C7: a request with no `sequence_id` input proceeds with sequence id 0;
one with no `sequence_control_input` input proceeds with control CONTINUE
(`NO_CONTROL_INPUT`); consequently a request containing neither special
input fails validation with `SEQUENCE_ID_NOT_PROVIDED`, and a request with
no `sequence_id` whose control extracts to START passes special-key
validation with sequence id 0. -/
theorem validateSpecialKeys_absent_input_defaults (r : PredictRequest) :
    (r.findInput "sequence_id" = none → requestSequenceId r = .ok 0) ∧
    (r.findInput "sequence_control_input" = none →
      requestControlInput r = .ok NO_CONTROL_INPUT) ∧
    (r.findInput "sequence_id" = none → r.findInput "sequence_control_input" = none →
      validateSpecialKeys r = .error .SEQUENCE_ID_NOT_PROVIDED) ∧
    (r.findInput "sequence_id" = none → requestControlInput r = .ok SEQUENCE_START →
      validateSpecialKeys r = .ok ⟨0, SEQUENCE_START⟩) := by
  refine ⟨?_, ?_, ?_, ?_⟩
  · intro h
    simp [requestSequenceId, h]
  · intro h
    simp [requestControlInput, h]
  · intro hid hc
    simp [validateSpecialKeys, requestSequenceId, requestControlInput, hid, hc,
      NO_CONTROL_INPUT, SEQUENCE_START, SEQUENCE_END]
  · intro hid hc
    simp [validateSpecialKeys, requestSequenceId, hid, hc,
      NO_CONTROL_INPUT, SEQUENCE_START, SEQUENCE_END]

/-- Witness for C7: the empty request fails with
`SEQUENCE_ID_NOT_PROVIDED`; a request carrying only a START control passes
with sequence id 0. -/
theorem validateSpecialKeys_absent_input_defaults_witness :
    validateSpecialKeys ⟨[]⟩ = .error .SEQUENCE_ID_NOT_PROVIDED ∧
    validateSpecialKeys ⟨[("sequence_control_input", { dims := [1], uint32Val := [1] })]⟩ =
      .ok ⟨0, SEQUENCE_START⟩ := by
  constructor
  · exact (validateSpecialKeys_absent_input_defaults ⟨[]⟩).2.2.1 (by decide) (by decide)
  · exact (validateSpecialKeys_absent_input_defaults
      ⟨[("sequence_control_input", { dims := [1], uint32Val := [1] })]⟩).2.2.2
      (by decide) (by decide)

/-- C5: `validateSpecialKeys` rejects a control value outside
{CONTINUE = 0, START = 1, END = 2} with `INVALID_SEQUENCE_CONTROL_INPUT`,
and that check runs before the id check (the conclusion holds for every
extracted id, including 0); after it, control CONTINUE or END together
with sequence id 0 fails `SEQUENCE_ID_NOT_PROVIDED`; only when both checks
pass is the processing spec populated with the extracted id and control. -/
theorem validateSpecialKeys_control_check_first (r : PredictRequest) (i c : Nat) :
    requestSequenceId r = .ok i → requestControlInput r = .ok c →
    (c ≠ NO_CONTROL_INPUT → c ≠ SEQUENCE_START → c ≠ SEQUENCE_END →
      validateSpecialKeys r = .error .INVALID_SEQUENCE_CONTROL_INPUT) ∧
    ((c = NO_CONTROL_INPUT ∨ c = SEQUENCE_END) → i = 0 →
      validateSpecialKeys r = .error .SEQUENCE_ID_NOT_PROVIDED) ∧
    ((c = NO_CONTROL_INPUT ∨ c = SEQUENCE_START ∨ c = SEQUENCE_END) →
      ¬((c = NO_CONTROL_INPUT ∨ c = SEQUENCE_END) ∧ i = 0) →
      validateSpecialKeys r = .ok ⟨i, c⟩) := by
  intro hi hc
  refine ⟨?_, ?_, ?_⟩
  · intro h0 h1 h2
    simp only [validateSpecialKeys, hi, hc]
    rw [if_pos ⟨h2, h0, h1⟩]
  · intro hor hz
    simp only [validateSpecialKeys, hi, hc]
    rw [if_neg, if_pos]
    · exact ⟨hor.elim .inr .inl, hz⟩
    · rcases hor with h | h <;> simp [h, NO_CONTROL_INPUT, SEQUENCE_END, SEQUENCE_START]
  · intro hin hok
    simp only [validateSpecialKeys, hi, hc]
    rw [if_neg, if_neg]
    · intro ⟨h1, h2⟩
      exact hok ⟨h1.elim .inr .inl, h2⟩
    · intro ⟨h2, h0, h1⟩
      rcases hin with h | h | h
      exacts [h0 h, h1 h, h2 h]

/-- Witness for C5: control 9 with id 1 fails
`INVALID_SEQUENCE_CONTROL_INPUT` (the control check masks the id); control
END with id 0 fails `SEQUENCE_ID_NOT_PROVIDED`; control CONTINUE with id 5
passes and populates the spec. -/
theorem validateSpecialKeys_control_check_first_witness :
    validateSpecialKeys ⟨[("sequence_id", { dims := [1], uint64Val := [1] }),
        ("sequence_control_input", { dims := [1], uint32Val := [9] })]⟩ =
      .error .INVALID_SEQUENCE_CONTROL_INPUT ∧
    validateSpecialKeys ⟨[("sequence_id", { dims := [1], uint64Val := [0] }),
        ("sequence_control_input", { dims := [1], uint32Val := [2] })]⟩ =
      .error .SEQUENCE_ID_NOT_PROVIDED ∧
    validateSpecialKeys ⟨[("sequence_id", { dims := [1], uint64Val := [5] }),
        ("sequence_control_input", { dims := [1], uint32Val := [0] })]⟩ =
      .ok ⟨5, 0⟩ := by
  refine ⟨?_, ?_, ?_⟩
  · exact (validateSpecialKeys_control_check_first
      ⟨[("sequence_id", { dims := [1], uint64Val := [1] }),
        ("sequence_control_input", { dims := [1], uint32Val := [9] })]⟩ 1 9
      (by decide) (by decide)).1 (by decide) (by decide) (by decide)
  · exact (validateSpecialKeys_control_check_first
      ⟨[("sequence_id", { dims := [1], uint64Val := [0] }),
        ("sequence_control_input", { dims := [1], uint32Val := [2] })]⟩ 0 2
      (by decide) (by decide)).2.1 (by decide) (by decide)
  · exact (validateSpecialKeys_control_check_first
      ⟨[("sequence_id", { dims := [1], uint64Val := [5] }),
        ("sequence_control_input", { dims := [1], uint32Val := [0] })]⟩ 5 0
      (by decide) (by decide)).2.2 (by decide) (by decide)

/-- When every slot name is present in the memory map, the non-START loop
succeeds and sets each slot from its saved payload. -/
theorem setSlotsFromMemory_all_present {α : Type} (slots : List (StateSlot α))
    (memory : List (String × α)) :
    (∀ s ∈ slots, (memory.lookup s.name).isSome) →
    setSlotsFromMemory slots memory =
      .ok (slots.map fun s => { s with value := (memory.lookup s.name).getD s.value }) := by
  induction slots with
  | nil => intro _; rfl
  | cons s rest ih =>
    intro h
    obtain ⟨v, hv⟩ := Option.isSome_iff_exists.mp (h s (by simp))
    simp [setSlotsFromMemory, hv, ih fun x hx => h x (List.mem_cons_of_mem _ hx)]

/-- When some slot name is absent from the memory map, the non-START loop
fails with `INTERNAL_ERROR`. -/
theorem setSlotsFromMemory_missing_name {α : Type} (slots : List (StateSlot α))
    (memory : List (String × α)) :
    (∃ s ∈ slots, memory.lookup s.name = none) →
    setSlotsFromMemory slots memory = .error .INTERNAL_ERROR := by
  induction slots with
  | nil => rintro ⟨s, hs, -⟩; cases hs
  | cons s rest ih =>
    rintro ⟨t, ht, hnone⟩
    rcases List.mem_cons.mp ht with rfl | hmem
    · simp [setSlotsFromMemory, hnone]
    · cases hl : memory.lookup s.name with
      | none => simp [setSlotsFromMemory, hl]
      | some v => simp [setSlotsFromMemory, hl, ih ⟨t, hmem, hnone⟩]

/-- C3: in `preInferenceProcessing`, control START resets every state slot
on the handle to the model's default and succeeds; any other control
(CONTINUE or END) looks every exposed slot name up in the sequence's
memory map and sets the saved payload on the handle, and returns
`INTERNAL_ERROR` as soon as any exposed slot name is absent from the
map. -/
theorem preInference_start_resets_otherwise_loads {α : Type}
    (slots : List (StateSlot α)) (seq : Sequence α) (spec : SequenceProcessingSpec) :
    (spec.sequenceControlInput = SEQUENCE_START →
      preInferenceProcessing slots seq spec = .ok (slots.map StateSlot.reset)) ∧
    (spec.sequenceControlInput ≠ SEQUENCE_START →
      ((∀ s ∈ slots, (seq.memoryState.lookup s.name).isSome) →
        preInferenceProcessing slots seq spec =
          .ok (slots.map fun s =>
            { s with value := (seq.memoryState.lookup s.name).getD s.value })) ∧
      ((∃ s ∈ slots, seq.memoryState.lookup s.name = none) →
        preInferenceProcessing slots seq spec = .error .INTERNAL_ERROR)) := by
  constructor
  · intro h
    simp [preInferenceProcessing, h]
  · intro h
    constructor
    · intro hall
      simp [preInferenceProcessing, h, setSlotsFromMemory_all_present slots seq.memoryState hall]
    · intro hmiss
      simp [preInferenceProcessing, h,
        setSlotsFromMemory_missing_name slots seq.memoryState hmiss]

/-- Witness for C3: on slots `h1`, `h2` with saved payloads 9 and 8, START
resets to the defaults, CONTINUE loads 9 and 8, and a map missing `h2`
makes CONTINUE fail with `INTERNAL_ERROR`. -/
theorem preInference_start_resets_otherwise_loads_witness :
    preInferenceProcessing [⟨"h1", 0, 5⟩, ⟨"h2", 1, 6⟩]
        (⟨[("h1", 9), ("h2", 8)], false⟩ : Sequence Nat) ⟨4, SEQUENCE_START⟩ =
      .ok [⟨"h1", 0, 0⟩, ⟨"h2", 1, 1⟩] ∧
    preInferenceProcessing [⟨"h1", 0, 5⟩, ⟨"h2", 1, 6⟩]
        (⟨[("h1", 9), ("h2", 8)], false⟩ : Sequence Nat) ⟨4, NO_CONTROL_INPUT⟩ =
      .ok [⟨"h1", 0, 9⟩, ⟨"h2", 1, 8⟩] ∧
    preInferenceProcessing [⟨"h1", 0, 5⟩, ⟨"h2", 1, 6⟩]
        (⟨[("h1", 9)], false⟩ : Sequence Nat) ⟨4, SEQUENCE_END⟩ =
      .error .INTERNAL_ERROR := by
  refine ⟨?_, ?_, ?_⟩
  · exact (preInference_start_resets_otherwise_loads [⟨"h1", 0, 5⟩, ⟨"h2", 1, 6⟩]
      ⟨[("h1", 9), ("h2", 8)], false⟩ ⟨4, SEQUENCE_START⟩).1 (by decide)
  · have h := (preInference_start_resets_otherwise_loads [⟨"h1", 0, 5⟩, ⟨"h2", 1, 6⟩]
      (⟨[("h1", 9), ("h2", 8)], false⟩ : Sequence Nat) ⟨4, NO_CONTROL_INPUT⟩).2
      (by decide) |>.1 (by decide)
    simpa using h
  · exact (preInference_start_resets_otherwise_loads [⟨"h1", 0, 5⟩, ⟨"h2", 1, 6⟩]
      (⟨[("h1", 9)], false⟩ : Sequence Nat) ⟨4, SEQUENCE_END⟩).2 (by decide) |>.2
      ⟨⟨"h2", 1, 6⟩, by simp, by simp⟩

/-- Replacing the entry keyed `i` in an association list changes exactly
the value looked up at `i`. -/
theorem list_lookup_replace_self {β : Type} (l : List (Nat × β)) (i : Nat) (s : β) :
    ((l.map fun p => if p.1 = i then (i, s) else p).lookup i) =
      (l.lookup i).map fun _ => s := by
  induction l with
  | nil => rfl
  | cons p rest ih =>
    obtain ⟨a, b⟩ := p
    simp only [List.map_cons]
    by_cases hai : a = i
    · subst hai
      rw [if_pos rfl]
      rw [List.lookup_cons, List.lookup_cons]
      simp
    · rw [if_neg hai]
      have hne : (i == a) = false := by simp [Ne.symm hai]
      rw [List.lookup_cons, List.lookup_cons, hne]
      exact ih

/-- Dropping every entry keyed `i` from an association list makes the
lookup at `i` fail. -/
theorem list_lookup_filter_ne {β : Type} (l : List (Nat × β)) (i : Nat) :
    ((l.filter fun p => p.1 ≠ i).lookup i) = none := by
  induction l with
  | nil => rfl
  | cons p rest ih =>
    obtain ⟨a, b⟩ := p
    by_cases hai : a = i
    · rw [List.filter_cons_of_neg (by simp [hai])]
      exact ih
    · rw [List.filter_cons_of_pos (by simp [hai])]
      have hne : (i == a) = false := by simp [Ne.symm hai]
      rw [List.lookup_cons, hne]
      exact ih

/-- `setSequence` changes the stored sequence at exactly the written id. -/
theorem setSequence_lookup_self {α : Type} (mgr : SequenceManager α) (i : Nat)
    (s : Sequence α) :
    ((mgr.setSequence i s).sequences.lookup i) = (mgr.sequences.lookup i).map fun _ => s := by
  simp [SequenceManager.setSequence, list_lookup_replace_self]

/-- `setSequence` does not change which ids exist. -/
theorem sequenceExists_setSequence_self {α : Type} (mgr : SequenceManager α) (i : Nat)
    (s : Sequence α) :
    (mgr.setSequence i s).sequenceExists i = mgr.sequenceExists i := by
  simp only [SequenceManager.sequenceExists, setSequence_lookup_self]
  cases mgr.sequences.lookup i <;> simp

/-- Reading back a sequence just written under an existing id. -/
theorem getSequence_setSequence_self {α : Type} (mgr : SequenceManager α) (i : Nat)
    (s : Sequence α) (h : mgr.sequenceExists i = true) :
    (mgr.setSequence i s).getSequence i = s := by
  obtain ⟨t, ht⟩ := Option.isSome_iff_exists.mp h
  simp [SequenceManager.getSequence, setSequence_lookup_self, ht]

/-- Clearing the idle flag does not change which ids exist. -/
theorem sequenceExists_clearIdleFlag {α : Type} (mgr : SequenceManager α) (i : Nat) :
    (mgr.clearIdleFlag i).sequenceExists i = mgr.sequenceExists i := by
  simp [SequenceManager.clearIdleFlag, sequenceExists_setSequence_self]

/-- After `clearIdleFlag` on an existing id, the stored sequence is the old
one with `idle` cleared. -/
theorem getSequence_clearIdleFlag {α : Type} (mgr : SequenceManager α) (i : Nat)
    (h : mgr.sequenceExists i = true) :
    (mgr.clearIdleFlag i).getSequence i = { mgr.getSequence i with idle := false } := by
  simp [SequenceManager.clearIdleFlag, getSequence_setSequence_self mgr i _ h]

/-- `removeSequence` on an existing id succeeds and afterwards the id is
absent. -/
theorem removeSequence_of_exists {α : Type} (mgr : SequenceManager α) (i : Nat)
    (h : mgr.sequenceExists i = true) :
    ∃ mgr', mgr.removeSequence i = .ok mgr' ∧ mgr'.sequenceExists i = false := by
  refine ⟨{ mgr with sequences := mgr.sequences.filter fun p => p.1 ≠ i }, ?_, ?_⟩
  · simp [SequenceManager.removeSequence, h]
  · show (List.lookup i (mgr.sequences.filter fun p => p.1 ≠ i)).isSome = false
    rw [list_lookup_filter_ne]
    rfl

/-- The errors of `extractSequenceId` are never `OK`. -/
theorem extractSequenceId_error_ne_ok (p : TensorProto) (s : StatusCode) :
    extractSequenceId p = .error s → s ≠ .OK := by
  unfold extractSequenceId
  split_ifs <;> intro h <;>
    first
      | exact h.elim
      | (injection h with h2; subst h2; decide)

/-- The errors of `extractSequenceControlInput` are never `OK`. -/
theorem extractSequenceControlInput_error_ne_ok (p : TensorProto) (s : StatusCode) :
    extractSequenceControlInput p = .error s → s ≠ .OK := by
  unfold extractSequenceControlInput
  split_ifs <;> intro h <;>
    first
      | exact h.elim
      | (injection h with h2; subst h2; decide)

/-- The errors of the `sequence_id` extraction step are never `OK`. -/
theorem requestSequenceId_error_ne_ok (r : PredictRequest) (s : StatusCode) :
    requestSequenceId r = .error s → s ≠ .OK := by
  unfold requestSequenceId
  cases r.findInput "sequence_id" with
  | none => intro h; cases h
  | some p => exact extractSequenceId_error_ne_ok p s

/-- The errors of the `sequence_control_input` extraction step are never
`OK`. -/
theorem requestControlInput_error_ne_ok (r : PredictRequest) (s : StatusCode) :
    requestControlInput r = .error s → s ≠ .OK := by
  unfold requestControlInput
  cases r.findInput "sequence_control_input" with
  | none => intro h; cases h
  | some p => exact extractSequenceControlInput_error_ne_ok p s

/-- The errors of `validateSpecialKeys` are never `OK`. -/
theorem validateSpecialKeys_error_ne_ok (r : PredictRequest) (s : StatusCode) :
    validateSpecialKeys r = .error s → s ≠ .OK := by
  cases hq : requestSequenceId r with
  | error e =>
    simp only [validateSpecialKeys, hq]
    intro h
    injection h with h2
    subst h2
    exact requestSequenceId_error_ne_ok r e hq
  | ok i =>
    cases hc : requestControlInput r with
    | error e =>
      simp only [validateSpecialKeys, hq, hc]
      intro h
      injection h with h2
      subst h2
      exact requestControlInput_error_ne_ok r e hc
    | ok c =>
      simp only [validateSpecialKeys, hq, hc]
      split_ifs <;> intro h <;>
        first
          | exact h.elim
          | (injection h with h2; subst h2; decide)

/-- The errors of `validate` are never `OK`. -/
theorem validate_error_ne_ok {α : Type} (r : PredictRequest) (ext : Externals α)
    (s : StatusCode) : validate r ext = .error s → s ≠ .OK := by
  unfold validate
  cases hv : validateSpecialKeys r with
  | error e =>
    intro h
    cases h
    exact validateSpecialKeys_error_ne_ok r _ hv
  | ok spec =>
    by_cases hg : ext.genericValidationStatus = .OK <;> intro h <;> simp_all

/-- A successful `validate` is a successful `validateSpecialKeys`. -/
theorem validate_ok_specialKeys {α : Type} (r : PredictRequest) (ext : Externals α)
    (spec : SequenceProcessingSpec) :
    validate r ext = .ok spec → validateSpecialKeys r = .ok spec := by
  unfold validate
  cases hv : validateSpecialKeys r with
  | error e => intro h; cases h
  | ok spec' =>
    by_cases hg : ext.genericValidationStatus = .OK <;> intro h <;> simp_all

/-- A spec that passed `validateSpecialKeys` with control CONTINUE or END
carries a non-zero sequence id. -/
theorem validateSpecialKeys_ok_id_ne_zero (r : PredictRequest)
    (spec : SequenceProcessingSpec) :
    validateSpecialKeys r = .ok spec →
    (spec.sequenceControlInput = NO_CONTROL_INPUT ∨
      spec.sequenceControlInput = SEQUENCE_END) →
    spec.sequenceId ≠ 0 := by
  cases hq : requestSequenceId r with
  | error e => simp [validateSpecialKeys, hq]
  | ok i =>
    cases hc : requestControlInput r with
    | error e => simp [validateSpecialKeys, hq, hc]
    | ok c =>
      simp only [validateSpecialKeys, hq, hc]
      split_ifs with h1 h2
      · intro h; cases h
      · intro h; cases h
      · intro h
        injection h with h2'
        subst h2'
        intro hor hz
        exact h2 ⟨hor.symm, hz⟩

/-- The errors of `processRequestedSpec` are never `OK`. -/
theorem processRequestedSpec_error_ne_ok {α : Type} (mgr : SequenceManager α)
    (spec : SequenceProcessingSpec) (s : StatusCode) :
    mgr.processRequestedSpec spec = .error s → s ≠ .OK := by
  unfold SequenceManager.processRequestedSpec
  split_ifs <;> intro h <;>
    first
      | exact h.elim
      | (injection h with h2; subst h2; decide)

/-- The errors of `setSlotsFromMemory` are exactly `INTERNAL_ERROR`. -/
theorem setSlotsFromMemory_error_eq {α : Type} (slots : List (StateSlot α))
    (memory : List (String × α)) (s : StatusCode) :
    setSlotsFromMemory slots memory = .error s → s = .INTERNAL_ERROR := by
  induction slots with
  | nil => intro h; cases h
  | cons t rest ih =>
    cases hl : memory.lookup t.name with
    | none => intro h; rw [setSlotsFromMemory, hl] at h; cases h; rfl
    | some v =>
      intro h
      rw [setSlotsFromMemory, hl] at h
      cases hr : setSlotsFromMemory rest memory with
      | error e =>
        rw [hr] at h
        cases h
        exact ih hr
      | ok l => rw [hr] at h; cases h

/-- The errors of `preInferenceProcessing` are never `OK`. -/
theorem preInferenceProcessing_error_ne_ok {α : Type} (slots : List (StateSlot α))
    (seq : Sequence α) (spec : SequenceProcessingSpec) (s : StatusCode) :
    preInferenceProcessing slots seq spec = .error s → s ≠ .OK := by
  unfold preInferenceProcessing
  split_ifs <;> intro h
  · cases h
  · rw [setSlotsFromMemory_error_eq _ _ _ h]
    simp

/-- Postconditions of a successful `processRequestedSpec`: the resolved id
is non-zero, the control is unchanged, a client-chosen non-zero id is kept,
and the resolved id exists in the resulting manager. -/
theorem processRequestedSpec_ok_facts {α : Type} (mgr : SequenceManager α)
    (spec₀ spec : SequenceProcessingSpec) (mgr₁ : SequenceManager α) :
    mgr.processRequestedSpec spec₀ = .ok (spec, mgr₁) →
    spec.sequenceId ≠ 0 ∧
    spec.sequenceControlInput = spec₀.sequenceControlInput ∧
    (spec₀.sequenceId ≠ 0 → spec.sequenceId = spec₀.sequenceId) ∧
    mgr₁.sequenceExists spec.sequenceId = true := by
  unfold SequenceManager.processRequestedSpec
  by_cases h1 : spec₀.sequenceControlInput = SEQUENCE_START
  · rw [if_pos h1]
    by_cases h2 : spec₀.sequenceId = 0
    · rw [if_pos h2]
      by_cases h3 : mgr.maxSequenceNumber ≤ mgr.sequences.length
      · rw [if_pos h3]; intro h; cases h
      · rw [if_neg h3]
        intro h
        injection h with h4
        injection h4 with h5 h6
        subst h5
        subst h6
        exact ⟨Nat.succ_ne_zero _, rfl, fun hn => absurd h2 hn,
          by simp [SequenceManager.sequenceExists, List.lookup]⟩
    · rw [if_neg h2]
      by_cases h3 : mgr.sequenceExists spec₀.sequenceId = true
      · rw [if_pos h3]; intro h; cases h
      · rw [if_neg h3]
        by_cases h4 : mgr.maxSequenceNumber ≤ mgr.sequences.length
        · rw [if_pos h4]; intro h; cases h
        · rw [if_neg h4]
          intro h
          injection h with h5
          injection h5 with h6 h7
          subst h6
          subst h7
          exact ⟨h2, rfl, fun _ => rfl, by simp [SequenceManager.sequenceExists, List.lookup]⟩
  · rw [if_neg h1]
    by_cases h2 : spec₀.sequenceId = 0
    · rw [if_pos h2]; intro h; cases h
    · rw [if_neg h2]
      by_cases h3 : mgr.sequenceExists spec₀.sequenceId = true
      · rw [if_pos h3]
        intro h
        injection h with h4
        injection h4 with h5 h6
        subst h5
        subst h6
        exact ⟨h2, rfl, fun _ => rfl, h3⟩
      · rw [if_neg h3]; intro h; cases h

/-- The response returned by `postInferenceProcessing` is the input
response with the `sequence_id` output written, whatever the control. -/
theorem postInference_response {α : Type} (response : PredictResponse)
    (slots : List (StateSlot α)) (seq : Sequence α) (spec : SequenceProcessingSpec) :
    (postInferenceProcessing response slots seq spec).1 =
      writeSequenceIdOutput response spec.sequenceId := by
  unfold postInferenceProcessing
  split_ifs <;> rfl

/-- `postInferenceProcessing` never touches the sequence's idle flag. -/
theorem postInference_idle {α : Type} (response : PredictResponse)
    (slots : List (StateSlot α)) (seq : Sequence α) (spec : SequenceProcessingSpec) :
    (postInferenceProcessing response slots seq spec).2.2.idle = seq.idle := by
  unfold postInferenceProcessing Sequence.updateMemoryState
  split_ifs <;> rfl

/-- Writing the `sequence_id` output into a response that does not yet have
one stores a fresh rank-1, unsigned-64 proto holding exactly the id. -/
theorem writeSequenceIdOutput_fresh (response : PredictResponse) (sequenceId : Nat) :
    response.lookup "sequence_id" = none →
    (writeSequenceIdOutput response sequenceId).lookup "sequence_id" =
      some ⟨.DT_UINT64, [1], [sequenceId], []⟩ := by
  intro h
  unfold writeSequenceIdOutput
  rw [h]
  rw [if_neg (by simp)]
  rw [List.lookup_append, h]
  simp

/-- Exhaustive case analysis of one `infer` run: it either fails
validation (no locks taken, nothing mutated), fails `processRequestedSpec`
(manager locked and released, nothing mutated), fails a middle step after
the hand-off (sequence still present, idle flag cleared), succeeds with a
control other than END (sequence present, idle cleared, response carries
the resolved id), or succeeds with END (sequence removed after re-locking
the manager, response carries the resolved id). -/
theorem infer_run_cases {α : Type} (r : PredictRequest) (ext : Externals α)
    (mgr : SequenceManager α) :
    (∃ s, s ≠ .OK ∧ validate r ext = .error s ∧ infer r ext mgr = ⟨s, mgr, [], []⟩) ∨
    (∃ spec₀ s, validate r ext = .ok spec₀ ∧ s ≠ .OK ∧
      mgr.processRequestedSpec spec₀ = .error s ∧
      infer r ext mgr = ⟨s, mgr, [], [.lockManager, .unlockManager]⟩) ∨
    (∃ spec₀ spec mgr₁ s, validate r ext = .ok spec₀ ∧
      mgr.processRequestedSpec spec₀ = .ok (spec, mgr₁) ∧ s ≠ .OK ∧
      (infer r ext mgr).status = s ∧
      (infer r ext mgr).events =
        [.lockManager, .lockSequence, .clearIdle, .unlockManager, .unlockSequence] ∧
      (infer r ext mgr).manager.sequenceExists spec.sequenceId = true ∧
      ((infer r ext mgr).manager.getSequence spec.sequenceId).idle = false) ∨
    (∃ spec₀ spec mgr₁, validate r ext = .ok spec₀ ∧
      mgr.processRequestedSpec spec₀ = .ok (spec, mgr₁) ∧
      spec.sequenceControlInput ≠ SEQUENCE_END ∧
      (infer r ext mgr).status = .OK ∧
      (infer r ext mgr).events =
        [.lockManager, .lockSequence, .clearIdle, .unlockManager, .unlockSequence] ∧
      (infer r ext mgr).response =
        writeSequenceIdOutput ext.serializedOutputs spec.sequenceId ∧
      (infer r ext mgr).manager.sequenceExists spec.sequenceId = true ∧
      ((infer r ext mgr).manager.getSequence spec.sequenceId).idle = false) ∨
    (∃ spec₀ spec mgr₁, validate r ext = .ok spec₀ ∧
      mgr.processRequestedSpec spec₀ = .ok (spec, mgr₁) ∧
      spec.sequenceControlInput = SEQUENCE_END ∧
      (infer r ext mgr).status = .OK ∧
      (infer r ext mgr).events =
        [.lockManager, .lockSequence, .clearIdle, .unlockManager, .unlockSequence,
         .lockManager, .removeSeq, .unlockManager] ∧
      (infer r ext mgr).response =
        writeSequenceIdOutput ext.serializedOutputs spec.sequenceId ∧
      (infer r ext mgr).manager.sequenceExists spec.sequenceId = false) := by
  cases hv : validate r ext with
  | error s =>
    exact .inl ⟨s, validate_error_ne_ok r ext s hv, rfl, by simp only [infer, hv]⟩
  | ok spec₀ =>
    cases hp : mgr.processRequestedSpec spec₀ with
    | error s =>
      exact .inr (.inl ⟨spec₀, s, rfl, processRequestedSpec_error_ne_ok mgr spec₀ s hp, hp,
        by simp only [infer, hv, hp]⟩)
    | ok out =>
      obtain ⟨spec, mgr₁⟩ := out
      have hex : mgr₁.sequenceExists spec.sequenceId = true :=
        (processRequestedSpec_ok_facts mgr spec₀ spec mgr₁ hp).2.2.2
      have hex₂ : (mgr₁.clearIdleFlag spec.sequenceId).sequenceExists spec.sequenceId
          = true := by
        rw [sequenceExists_clearIdleFlag]
        exact hex
      have hidle : ((mgr₁.clearIdleFlag spec.sequenceId).getSequence spec.sequenceId).idle
          = false := by
        rw [getSequence_clearIdleFlag mgr₁ spec.sequenceId hex]
      cases hpre : preInferenceProcessing ext.initialSlots
          ((mgr₁.clearIdleFlag spec.sequenceId).getSequence spec.sequenceId) spec with
      | error s =>
        have hI : infer r ext mgr = ⟨s, mgr₁.clearIdleFlag spec.sequenceId, [],
            [.lockManager, .lockSequence, .clearIdle, .unlockManager, .unlockSequence]⟩ := by
          simp only [infer, hv, hp, hex, not_true, eq_self_iff_true, if_false, ite_false,
            hpre, List.cons_append, List.nil_append]
        exact .inr (.inr (.inl ⟨spec₀, spec, mgr₁, s, rfl, hp,
          preInferenceProcessing_error_ne_ok _ _ _ _ hpre,
          by rw [hI], by rw [hI], by rw [hI]; exact hex₂, by rw [hI]; exact hidle⟩))
      | ok slots₁ =>
        by_cases hdes : ext.deserializeStatus = .OK
        case neg =>
          have hI : infer r ext mgr =
              ⟨ext.deserializeStatus, mgr₁.clearIdleFlag spec.sequenceId, [],
               [.lockManager, .lockSequence, .clearIdle, .unlockManager, .unlockSequence]⟩ := by
            simp only [infer, hv, hp, hex, not_true, eq_self_iff_true, if_false, ite_false,
              hpre, ne_eq, hdes, not_false_eq_true, not_false_iff, if_true, ite_true,
              List.cons_append, List.nil_append]
          exact .inr (.inr (.inl ⟨spec₀, spec, mgr₁, ext.deserializeStatus, rfl, hp, hdes,
            by rw [hI], by rw [hI], by rw [hI]; exact hex₂, by rw [hI]; exact hidle⟩))
        case pos =>
        by_cases hpred : ext.predictStatus = .OK
        case neg =>
          have hI : infer r ext mgr =
              ⟨ext.predictStatus, mgr₁.clearIdleFlag spec.sequenceId, [],
               [.lockManager, .lockSequence, .clearIdle, .unlockManager, .unlockSequence]⟩ := by
            simp only [infer, hv, hp, hex, not_true, eq_self_iff_true, if_false, ite_false,
              hpre, ne_eq, hdes, hpred, not_false_eq_true, not_false_iff, if_true, ite_true,
              List.cons_append, List.nil_append]
          exact .inr (.inr (.inl ⟨spec₀, spec, mgr₁, ext.predictStatus, rfl, hp, hpred,
            by rw [hI], by rw [hI], by rw [hI]; exact hex₂, by rw [hI]; exact hidle⟩))
        case pos =>
        by_cases hser : ext.serializeStatus = .OK
        case neg =>
          have hI : infer r ext mgr =
              ⟨ext.serializeStatus, mgr₁.clearIdleFlag spec.sequenceId, [],
               [.lockManager, .lockSequence, .clearIdle, .unlockManager, .unlockSequence]⟩ := by
            simp only [infer, hv, hp, hex, not_true, eq_self_iff_true, if_false, ite_false,
              hpre, ne_eq, hdes, hpred, hser, not_false_eq_true, not_false_iff, if_true,
              ite_true, List.cons_append, List.nil_append]
          exact .inr (.inr (.inl ⟨spec₀, spec, mgr₁, ext.serializeStatus, rfl, hp, hser,
            by rw [hI], by rw [hI], by rw [hI]; exact hex₂, by rw [hI]; exact hidle⟩))
        case pos =>
        by_cases hend : spec.sequenceControlInput = SEQUENCE_END
        case neg =>
          have hI : infer r ext mgr =
              ⟨.OK,
               (mgr₁.clearIdleFlag spec.sequenceId).setSequence spec.sequenceId
                 (postInferenceProcessing ext.serializedOutputs (ext.predictEffect slots₁)
                   ((mgr₁.clearIdleFlag spec.sequenceId).getSequence spec.sequenceId)
                   spec).2.2,
               (postInferenceProcessing ext.serializedOutputs (ext.predictEffect slots₁)
                 ((mgr₁.clearIdleFlag spec.sequenceId).getSequence spec.sequenceId)
                 spec).1,
               [.lockManager, .lockSequence, .clearIdle, .unlockManager, .unlockSequence]⟩ := by
            simp only [infer, hv, hp, hex, not_true, eq_self_iff_true, if_false, ite_false,
              hpre, ne_eq, hdes, hpred, hser, hend, not_false_eq_true, not_false_iff,
              if_true, ite_true, List.cons_append, List.nil_append]
          refine .inr (.inr (.inr (.inl ⟨spec₀, spec, mgr₁, rfl, hp, hend,
            by rw [hI], by rw [hI], ?_, ?_, ?_⟩)))
          · rw [hI]
            exact postInference_response _ _ _ _
          · rw [hI]
            show ((mgr₁.clearIdleFlag spec.sequenceId).setSequence spec.sequenceId
              _).sequenceExists spec.sequenceId = true
            rw [sequenceExists_setSequence_self]
            exact hex₂
          · rw [hI]
            show (((mgr₁.clearIdleFlag spec.sequenceId).setSequence spec.sequenceId
              _).getSequence spec.sequenceId).idle = false
            rw [getSequence_setSequence_self _ _ _ hex₂, postInference_idle]
            exact hidle
        case pos =>
          have hex₃ : ((mgr₁.clearIdleFlag spec.sequenceId).setSequence spec.sequenceId
              (postInferenceProcessing ext.serializedOutputs (ext.predictEffect slots₁)
                ((mgr₁.clearIdleFlag spec.sequenceId).getSequence spec.sequenceId)
                spec).2.2).sequenceExists spec.sequenceId = true := by
            rw [sequenceExists_setSequence_self]
            exact hex₂
          obtain ⟨mgr₄, hrem, hgone⟩ := removeSequence_of_exists _ spec.sequenceId hex₃
          have hI : infer r ext mgr =
              ⟨.OK, mgr₄,
               (postInferenceProcessing ext.serializedOutputs (ext.predictEffect slots₁)
                 ((mgr₁.clearIdleFlag spec.sequenceId).getSequence spec.sequenceId)
                 spec).1,
               [.lockManager, .lockSequence, .clearIdle, .unlockManager, .unlockSequence,
                .lockManager, .removeSeq, .unlockManager]⟩ := by
            simp only [infer, hv, hp, hex, not_true, eq_self_iff_true, if_false, ite_false,
              hpre, ne_eq, hdes, hpred, hser, hend, not_false_eq_true, not_false_iff,
              if_true, ite_true, List.cons_append, List.nil_append, hrem]
          refine .inr (.inr (.inr (.inr ⟨spec₀, spec, mgr₁, rfl, hp, hend,
            by rw [hI], by rw [hI], ?_, ?_⟩)))
          · rw [hI]
            exact postInference_response _ _ _ _
          · rw [hI]
            exact hgone

/-- C9: every run of `infer`, whatever the request, the external outcomes
and the manager state, obeys the lock hierarchy checked by `checkLocks`:
the manager mutex is never acquired while a sequence mutex is held, the
sequence mutex is acquired only while holding the manager mutex (the
hand-off, the only region where both are held, which ends by releasing the
manager mutex, never the sequence mutex), and on the END path the sequence
mutex is released before the manager mutex is re-acquired for removal. -/
theorem infer_lock_hierarchy {α : Type} (r : PredictRequest) (ext : Externals α)
    (mgr : SequenceManager α) :
    checkLocks false false (infer r ext mgr).events = true := by
  rcases infer_run_cases r ext mgr with
    ⟨s, -, -, hI⟩ | ⟨spec₀, s, -, -, -, hI⟩ |
    ⟨spec₀, spec, mgr₁, s, -, -, -, -, hE, -, -⟩ |
    ⟨spec₀, spec, mgr₁, -, -, -, -, hE, -, -, -⟩ |
    ⟨spec₀, spec, mgr₁, -, -, -, -, hE, -, -⟩
  · rw [hI]
    rfl
  · rw [hI]
    rfl
  · rw [hE]
    rfl
  · rw [hE]
    rfl
  · rw [hE]
    rfl

/-- C1: whenever special-key plus generic validation succeed and
`processRequestedSpec` succeeds, the pipeline performs the hand-off
acquiring the target sequence's mutex, clearing its idle flag and only
then releasing the manager's mutex (the run's event trace begins
lockManager, lockSequence, clearIdle, unlockManager), and the sequence, as
long as it is still present, stays non-idle. -/
theorem infer_handoff_clears_idle {α : Type} (r : PredictRequest) (ext : Externals α)
    (mgr : SequenceManager α) (spec₀ : SequenceProcessingSpec)
    (out : SequenceProcessingSpec × SequenceManager α) :
    validate r ext = .ok spec₀ →
    mgr.processRequestedSpec spec₀ = .ok out →
    (∃ rest, (infer r ext mgr).events =
      [.lockManager, .lockSequence, .clearIdle, .unlockManager] ++ rest) ∧
    ((infer r ext mgr).manager.sequenceExists out.1.sequenceId = true →
      ((infer r ext mgr).manager.getSequence out.1.sequenceId).idle = false) := by
  intro hv hp
  rcases infer_run_cases r ext mgr with
    ⟨s, -, hv', -⟩ | ⟨spec₀', s, hv', -, hp', -⟩ |
    ⟨spec₀', spec, mgr₁, s, hv', hp', -, -, hE, hEx, hIdle⟩ |
    ⟨spec₀', spec, mgr₁, hv', hp', -, -, hE, -, hEx, hIdle⟩ |
    ⟨spec₀', spec, mgr₁, hv', hp', -, -, hE, -, hGone⟩
  · rw [hv] at hv'
    cases hv'
  · rw [hv] at hv'
    injection hv' with h₀
    subst h₀
    rw [hp] at hp'
    cases hp'
  · rw [hv] at hv'
    injection hv' with h₀
    subst h₀
    rw [hp] at hp'
    injection hp' with h₁
    subst h₁
    exact ⟨⟨[.unlockSequence], by rw [hE]; rfl⟩, fun _ => hIdle⟩
  · rw [hv] at hv'
    injection hv' with h₀
    subst h₀
    rw [hp] at hp'
    injection hp' with h₁
    subst h₁
    exact ⟨⟨[.unlockSequence], by rw [hE]; rfl⟩, fun _ => hIdle⟩
  · rw [hv] at hv'
    injection hv' with h₀
    subst h₀
    rw [hp] at hp'
    injection hp' with h₁
    subst h₁
    refine ⟨⟨[.unlockSequence, .lockManager, .removeSeq, .unlockManager], by rw [hE]; rfl⟩, ?_⟩
    intro hc
    rw [hGone] at hc
    cases hc

/-- Witness for C1: a CONTINUE request on an existing, currently idle
sequence 7; the run's trace opens with the hand-off and the stored
sequence ends up non-idle. -/
theorem infer_handoff_clears_idle_witness :
    (∃ rest,
      (infer ⟨[("sequence_id", { dims := [1], uint64Val := [7] })]⟩
        (⟨.OK, [], .OK, .OK, fun s => s, .OK, []⟩ : Externals Nat)
        (⟨[(7, ⟨[], true⟩)], 10⟩ : SequenceManager Nat)).events =
      [.lockManager, .lockSequence, .clearIdle, .unlockManager] ++ rest) ∧
    ((infer ⟨[("sequence_id", { dims := [1], uint64Val := [7] })]⟩
        (⟨.OK, [], .OK, .OK, fun s => s, .OK, []⟩ : Externals Nat)
        (⟨[(7, ⟨[], true⟩)], 10⟩ : SequenceManager Nat)).manager.sequenceExists 7 = true →
      ((infer ⟨[("sequence_id", { dims := [1], uint64Val := [7] })]⟩
        (⟨.OK, [], .OK, .OK, fun s => s, .OK, []⟩ : Externals Nat)
        (⟨[(7, ⟨[], true⟩)], 10⟩ : SequenceManager Nat)).manager.getSequence 7).idle = false) :=
  infer_handoff_clears_idle
    ⟨[("sequence_id", { dims := [1], uint64Val := [7] })]⟩
    (⟨.OK, [], .OK, .OK, fun s => s, .OK, []⟩ : Externals Nat)
    (⟨[(7, ⟨[], true⟩)], 10⟩ : SequenceManager Nat)
    ⟨7, 0⟩ (⟨7, 0⟩, ⟨[(7, ⟨[], true⟩)], 10⟩)
    (by decide) (by decide)

/-- `processRequestedSpec` on a non-START spec with a non-zero id that is
absent from the manager fails with `SEQUENCE_MISSING`. -/
theorem processRequestedSpec_missing {α : Type} (mgr : SequenceManager α)
    (spec : SequenceProcessingSpec) :
    spec.sequenceControlInput ≠ SEQUENCE_START → spec.sequenceId ≠ 0 →
    mgr.sequenceExists spec.sequenceId = false →
    mgr.processRequestedSpec spec = .error .SEQUENCE_MISSING := by
  intro hc hz he
  unfold SequenceManager.processRequestedSpec
  rw [if_neg hc, if_neg hz, if_neg (by rw [he]; exact Bool.false_ne_true)]

/-- C4: a request with control END that runs to a successful completion
first releases the sequence mutex, then re-acquires the manager mutex and
removes the sequence (the event trace in that exact order); afterwards the
id is absent from the manager, and any subsequent validated CONTINUE or
END request for the same id fails with `SEQUENCE_MISSING`. -/
theorem infer_end_removes_sequence {α : Type} (r : PredictRequest) (ext : Externals α)
    (mgr : SequenceManager α) (spec₀ : SequenceProcessingSpec) :
    validate r ext = .ok spec₀ →
    spec₀.sequenceControlInput = SEQUENCE_END →
    (infer r ext mgr).status = .OK →
    (infer r ext mgr).events =
      [.lockManager, .lockSequence, .clearIdle, .unlockManager,
       .unlockSequence, .lockManager, .removeSeq, .unlockManager] ∧
    (infer r ext mgr).manager.sequenceExists spec₀.sequenceId = false ∧
    (∀ (r₂ : PredictRequest) (ext₂ : Externals α) (c₂ : Nat),
      (c₂ = NO_CONTROL_INPUT ∨ c₂ = SEQUENCE_END) →
      validate r₂ ext₂ = .ok ⟨spec₀.sequenceId, c₂⟩ →
      (infer r₂ ext₂ (infer r ext mgr).manager).status = .SEQUENCE_MISSING) := by
  intro hv hend hok
  have hid₀ : spec₀.sequenceId ≠ 0 :=
    validateSpecialKeys_ok_id_ne_zero r spec₀ (validate_ok_specialKeys r ext spec₀ hv)
      (.inr hend)
  rcases infer_run_cases r ext mgr with
    ⟨s, hne, hv', hI⟩ | ⟨spec₀', s, hv', hne, hp', hI⟩ |
    ⟨spec₀', spec, mgr₁, s, hv', hp', hne, hS, -, -, -⟩ |
    ⟨spec₀', spec, mgr₁, hv', hp', hc, -, -, -, -, -⟩ |
    ⟨spec₀', spec, mgr₁, hv', hp', -, -, hE, -, hGone⟩
  · rw [hv] at hv'
    cases hv'
  · rw [hI] at hok
    exact absurd hok hne
  · rw [hok] at hS
    exact absurd hS.symm hne
  · rw [hv] at hv'
    injection hv' with h₀
    subst h₀
    have := (processRequestedSpec_ok_facts mgr spec₀ spec mgr₁ hp').2.1
    rw [hend] at this
    exact absurd this hc
  · rw [hv] at hv'
    injection hv' with h₀
    subst h₀
    have hfacts := processRequestedSpec_ok_facts mgr spec₀ spec mgr₁ hp'
    have hid : spec.sequenceId = spec₀.sequenceId := hfacts.2.2.1 hid₀
    rw [hid] at hGone
    refine ⟨hE, hGone, ?_⟩
    intro r₂ ext₂ c₂ hc₂ hv₂
    have hc₂ne : c₂ ≠ SEQUENCE_START := by
      rcases hc₂ with h | h <;> subst h <;> decide
    have hP : (infer r ext mgr).manager.processRequestedSpec ⟨spec₀.sequenceId, c₂⟩ =
        .error .SEQUENCE_MISSING :=
      processRequestedSpec_missing _ _ hc₂ne hid₀ hGone
    rcases infer_run_cases r₂ ext₂ (infer r ext mgr).manager with
      ⟨s₂, -, hv₂', -⟩ | ⟨spec₂, s₂, hv₂', -, hp₂, hI₂⟩ |
      ⟨spec₂, spec₂', mgr₂, s₂, hv₂', hp₂, -, -, -, -, -⟩ |
      ⟨spec₂, spec₂', mgr₂, hv₂', hp₂, -, -, -, -, -, -⟩ |
      ⟨spec₂, spec₂', mgr₂, hv₂', hp₂, -, -, -, -, -⟩
    · rw [hv₂] at hv₂'
      cases hv₂'
    · rw [hv₂] at hv₂'
      injection hv₂' with h₂
      subst h₂
      rw [hP] at hp₂
      injection hp₂ with h₃
      rw [hI₂, ← h₃]
    · rw [hv₂] at hv₂'
      injection hv₂' with h₂
      subst h₂
      rw [hP] at hp₂
      cases hp₂
    · rw [hv₂] at hv₂'
      injection hv₂' with h₂
      subst h₂
      rw [hP] at hp₂
      cases hp₂
    · rw [hv₂] at hv₂'
      injection hv₂' with h₂
      subst h₂
      rw [hP] at hp₂
      cases hp₂

/-- Witness for C4: END on live sequence 5 succeeds with the full
lock-unlock-relock trace, removes id 5, and a following CONTINUE for id 5
fails with `SEQUENCE_MISSING`. -/
theorem infer_end_removes_sequence_witness :
    (infer ⟨[("sequence_id", { dims := [1], uint64Val := [5] }),
        ("sequence_control_input", { dims := [1], uint32Val := [2] })]⟩
      (⟨.OK, [⟨"h", 0, 3⟩], .OK, .OK, fun s => s, .OK, []⟩ : Externals Nat)
      ⟨[(5, ⟨[("h", 1)], false⟩)], 10⟩).events =
      [.lockManager, .lockSequence, .clearIdle, .unlockManager,
       .unlockSequence, .lockManager, .removeSeq, .unlockManager] ∧
    (infer ⟨[("sequence_id", { dims := [1], uint64Val := [5] }),
        ("sequence_control_input", { dims := [1], uint32Val := [2] })]⟩
      (⟨.OK, [⟨"h", 0, 3⟩], .OK, .OK, fun s => s, .OK, []⟩ : Externals Nat)
      ⟨[(5, ⟨[("h", 1)], false⟩)], 10⟩).manager.sequenceExists 5 = false ∧
    (infer ⟨[("sequence_id", { dims := [1], uint64Val := [5] })]⟩
      (⟨.OK, [⟨"h", 0, 3⟩], .OK, .OK, fun s => s, .OK, []⟩ : Externals Nat)
      (infer ⟨[("sequence_id", { dims := [1], uint64Val := [5] }),
          ("sequence_control_input", { dims := [1], uint32Val := [2] })]⟩
        (⟨.OK, [⟨"h", 0, 3⟩], .OK, .OK, fun s => s, .OK, []⟩ : Externals Nat)
        ⟨[(5, ⟨[("h", 1)], false⟩)], 10⟩).manager).status = .SEQUENCE_MISSING := by
  have h := infer_end_removes_sequence
    ⟨[("sequence_id", { dims := [1], uint64Val := [5] }),
        ("sequence_control_input", { dims := [1], uint32Val := [2] })]⟩
    (⟨.OK, [⟨"h", 0, 3⟩], .OK, .OK, fun s => s, .OK, []⟩ : Externals Nat)
    ⟨[(5, ⟨[("h", 1)], false⟩)], 10⟩
    ⟨5, 2⟩ (by decide) (by decide) (by decide)
  exact ⟨h.1, h.2.1, h.2.2 ⟨[("sequence_id", { dims := [1], uint64Val := [5] })]⟩
    (⟨.OK, [⟨"h", 0, 3⟩], .OK, .OK, fun s => s, .OK, []⟩ : Externals Nat)
    0 (.inl rfl) (by decide)⟩

/-- C8: a special-key or generic validation failure makes `infer` return
that error before the manager mutex is taken (no events) and with the
manager unchanged; and once `processRequestedSpec` has succeeded (in
particular when START created a sequence), a failing later step leaves the
resolved sequence present in the manager. -/
theorem infer_failure_semantics {α : Type} (r : PredictRequest) (ext : Externals α)
    (mgr : SequenceManager α) :
    (∀ e, validateSpecialKeys r = .error e → infer r ext mgr = ⟨e, mgr, [], []⟩) ∧
    (∀ spec₀, validateSpecialKeys r = .ok spec₀ → ext.genericValidationStatus ≠ .OK →
      infer r ext mgr = ⟨ext.genericValidationStatus, mgr, [], []⟩) ∧
    (∀ spec₀ spec mgr₁, validate r ext = .ok spec₀ →
      mgr.processRequestedSpec spec₀ = .ok (spec, mgr₁) →
      (infer r ext mgr).status ≠ .OK →
      (infer r ext mgr).manager.sequenceExists spec.sequenceId = true) := by
  refine ⟨?_, ?_, ?_⟩
  · intro e he
    have hV : validate r ext = .error e := by
      simp only [validate, he]
    simp only [infer, hV]
  · intro spec₀ hs hg
    have hV : validate r ext = .error ext.genericValidationStatus := by
      simp only [validate, hs]
      rw [if_neg hg]
    simp only [infer, hV]
  · intro spec₀ spec mgr₁ hv hp hne
    rcases infer_run_cases r ext mgr with
      ⟨s, -, hv', -⟩ | ⟨spec₀', s, hv', -, hp', -⟩ |
      ⟨spec₀', spec', mgr₁', s, hv', hp', -, -, -, hEx, -⟩ |
      ⟨spec₀', spec', mgr₁', hv', hp', -, -, -, -, hEx, -⟩ |
      ⟨spec₀', spec', mgr₁', hv', hp', -, hS, -, -, -⟩
    · rw [hv] at hv'
      cases hv'
    · rw [hv] at hv'
      injection hv' with h₀
      subst h₀
      rw [hp] at hp'
      cases hp'
    · rw [hv] at hv'
      injection hv' with h₀
      subst h₀
      rw [hp] at hp'
      injection hp' with h₁
      injection h₁ with h₂ h₃
      subst h₂
      exact hEx
    · rw [hv] at hv'
      injection hv' with h₀
      subst h₀
      rw [hp] at hp'
      injection hp' with h₁
      injection h₁ with h₂ h₃
      subst h₂
      exact hEx
    · exact absurd hS hne

/-- Witness for C8: control 9 fails validation with manager untouched and
no events; a generic-validation error does the same; and a failing
deserialization after a START that created sequence 1 leaves that sequence
in the manager. -/
theorem infer_failure_semantics_witness :
    infer ⟨[("sequence_id", { dims := [1], uint64Val := [1] }),
        ("sequence_control_input", { dims := [1], uint32Val := [9] })]⟩
      (⟨.OK, [], .OK, .OK, fun s => s, .OK, []⟩ : Externals Nat) ⟨[], 10⟩ =
      ⟨.INVALID_SEQUENCE_CONTROL_INPUT, ⟨[], 10⟩, [], []⟩ ∧
    infer ⟨[("sequence_control_input", { dims := [1], uint32Val := [1] })]⟩
      (⟨.INVALID_MISSING_INPUT, [], .OK, .OK, fun s => s, .OK, []⟩ : Externals Nat)
      ⟨[], 10⟩ =
      ⟨.INVALID_MISSING_INPUT, ⟨[], 10⟩, [], []⟩ ∧
    (infer ⟨[("sequence_control_input", { dims := [1], uint32Val := [1] })]⟩
      (⟨.OK, [], .DESERIALIZATION_ERROR, .OK, fun s => s, .OK, []⟩ : Externals Nat)
      ⟨[], 10⟩).manager.sequenceExists 1 = true := by
  refine ⟨?_, ?_, ?_⟩
  · exact (infer_failure_semantics
      ⟨[("sequence_id", { dims := [1], uint64Val := [1] }),
        ("sequence_control_input", { dims := [1], uint32Val := [9] })]⟩
      (⟨.OK, [], .OK, .OK, fun s => s, .OK, []⟩ : Externals Nat) ⟨[], 10⟩).1
      .INVALID_SEQUENCE_CONTROL_INPUT (by decide)
  · exact (infer_failure_semantics
      ⟨[("sequence_control_input", { dims := [1], uint32Val := [1] })]⟩
      (⟨.INVALID_MISSING_INPUT, [], .OK, .OK, fun s => s, .OK, []⟩ : Externals Nat)
      ⟨[], 10⟩).2.1 ⟨0, 1⟩ (by decide) (by decide)
  · exact (infer_failure_semantics
      ⟨[("sequence_control_input", { dims := [1], uint32Val := [1] })]⟩
      (⟨.OK, [], .DESERIALIZATION_ERROR, .OK, fun s => s, .OK, []⟩ : Externals Nat)
      ⟨[], 10⟩).2.2 ⟨0, 1⟩ ⟨1, 1⟩ ⟨[(1, ⟨[], false⟩)], 10⟩ (by decide) (by decide)
      (by decide)

/-- C2: `postInferenceProcessing` on END resets every handle state slot and
leaves the sequence untouched; on any other control it writes the handle's
current state wholesale into the sequence; in all cases it adds to the
response an output named `sequence_id` of shape `(1)` and element type
unsigned-64 carrying the spec's sequence id — and at the `infer` level
every successful run's response carries the resolved id, which is non-zero
and equals the client-supplied id when one was supplied (on START-with-0
it is the server-generated non-zero id). -/
theorem postInference_end_reset_save_and_echo {α : Type} (response : PredictResponse)
    (slots : List (StateSlot α)) (seq : Sequence α) (spec : SequenceProcessingSpec) :
    (spec.sequenceControlInput = SEQUENCE_END →
      postInferenceProcessing response slots seq spec =
        (writeSequenceIdOutput response spec.sequenceId, slots.map StateSlot.reset, seq)) ∧
    (spec.sequenceControlInput ≠ SEQUENCE_END →
      postInferenceProcessing response slots seq spec =
        (writeSequenceIdOutput response spec.sequenceId, slots,
          { seq with memoryState := slots.map fun s => (s.name, s.value) })) ∧
    (response.lookup "sequence_id" = none →
      (postInferenceProcessing response slots seq spec).1.lookup "sequence_id" =
        some ⟨.DT_UINT64, [1], [spec.sequenceId], []⟩) ∧
    (∀ (r : PredictRequest) (ext : Externals α) (mgr : SequenceManager α)
        (spec₀ : SequenceProcessingSpec),
      validate r ext = .ok spec₀ →
      ext.serializedOutputs.lookup "sequence_id" = none →
      (infer r ext mgr).status = .OK →
      ∃ v, v ≠ 0 ∧
        (infer r ext mgr).response.lookup "sequence_id" =
          some ⟨.DT_UINT64, [1], [v], []⟩ ∧
        (spec₀.sequenceId ≠ 0 → v = spec₀.sequenceId)) := by
  refine ⟨?_, ?_, ?_, ?_⟩
  · intro h
    simp [postInferenceProcessing, h]
  · intro h
    simp [postInferenceProcessing, h, Sequence.updateMemoryState]
  · intro h
    rw [postInference_response]
    exact writeSequenceIdOutput_fresh response spec.sequenceId h
  · intro r ext mgr spec₀ hv hs hok
    rcases infer_run_cases r ext mgr with
      ⟨s, hne, hv', hI⟩ | ⟨spec₀', s, hv', hne, hp', hI⟩ |
      ⟨spec₀', spec', mgr₁', s, hv', hp', hne, hS, -, -, -⟩ |
      ⟨spec₀', spec', mgr₁', hv', hp', -, -, -, hResp, -, -⟩ |
      ⟨spec₀', spec', mgr₁', hv', hp', -, -, -, hResp, -⟩
    · rw [hv] at hv'
      cases hv'
    · rw [hI] at hok
      exact absurd hok hne
    · rw [hok] at hS
      exact absurd hS.symm hne
    · rw [hv] at hv'
      injection hv' with h₀
      subst h₀
      have hfacts := processRequestedSpec_ok_facts mgr spec₀ spec' mgr₁' hp'
      refine ⟨spec'.sequenceId, hfacts.1, ?_, fun h0 => hfacts.2.2.1 h0⟩
      rw [hResp]
      exact writeSequenceIdOutput_fresh _ _ hs
    · rw [hv] at hv'
      injection hv' with h₀
      subst h₀
      have hfacts := processRequestedSpec_ok_facts mgr spec₀ spec' mgr₁' hp'
      refine ⟨spec'.sequenceId, hfacts.1, ?_, fun h0 => hfacts.2.2.1 h0⟩
      rw [hResp]
      exact writeSequenceIdOutput_fresh _ _ hs

/-- Witness for C2: on slot `h`, END resets the handle and keeps the
sequence; CONTINUE snapshots the handle state into the sequence; the
response gains the `sequence_id` output; and a successful START-with-0 run
of `infer` answers with a non-zero server-generated id. -/
theorem postInference_end_reset_save_and_echo_witness :
    (postInferenceProcessing [] [⟨"h", 0, 3⟩] (⟨[("h", 1)], false⟩ : Sequence Nat)
        ⟨5, SEQUENCE_END⟩ =
      (writeSequenceIdOutput [] 5, [⟨"h", 0, 0⟩], ⟨[("h", 1)], false⟩)) ∧
    (postInferenceProcessing [] [⟨"h", 0, 3⟩] (⟨[("h", 1)], false⟩ : Sequence Nat)
        ⟨5, NO_CONTROL_INPUT⟩ =
      (writeSequenceIdOutput [] 5, [⟨"h", 0, 3⟩], ⟨[("h", 3)], false⟩)) ∧
    (postInferenceProcessing [] [⟨"h", 0, 3⟩] (⟨[("h", 1)], false⟩ : Sequence Nat)
        ⟨5, NO_CONTROL_INPUT⟩).1.lookup "sequence_id" =
      some ⟨.DT_UINT64, [1], [5], []⟩ ∧
    (∃ v, v ≠ 0 ∧
      (infer ⟨[("sequence_control_input", { dims := [1], uint32Val := [1] })]⟩
        (⟨.OK, [⟨"h", 0, 3⟩], .OK, .OK, fun s => s, .OK, []⟩ : Externals Nat)
        ⟨[], 10⟩).response.lookup "sequence_id" =
        some ⟨.DT_UINT64, [1], [v], []⟩ ∧
      ((0 : Nat) ≠ 0 → v = 0)) := by
  have h := postInference_end_reset_save_and_echo [] [⟨"h", 0, 3⟩]
    (⟨[("h", 1)], false⟩ : Sequence Nat) ⟨5, SEQUENCE_END⟩
  have h' := postInference_end_reset_save_and_echo [] [⟨"h", 0, 3⟩]
    (⟨[("h", 1)], false⟩ : Sequence Nat) ⟨5, NO_CONTROL_INPUT⟩
  refine ⟨?_, ?_, h'.2.2.1 (by decide), ?_⟩
  · have := h.1 (by decide)
    simpa using this
  · have := h'.2.1 (by decide)
    simpa using this
  · exact h.2.2.2 ⟨[("sequence_control_input", { dims := [1], uint32Val := [1] })]⟩
      (⟨.OK, [⟨"h", 0, 3⟩], .OK, .OK, fun s => s, .OK, []⟩ : Externals Nat)
      ⟨[], 10⟩ ⟨0, 1⟩ (by decide) (by decide) (by decide)

end Ovms
